import Mathlib

/-!
Verification of the chittypro-crtlo server logic.

This file gives a shallow embedding of the server-side logic of the
chittypro-crtlo repository and proves the documented properties about it:

* `src/server/routes.ts` — the HTTP route handlers (property creation with
  the RTLO coverage rule, RTLO questions, document generation, AI lease
  analysis, the GET list routes).
* `src/server/chittygateway.ts` — the response-sanitising stage of the AI
  gateway client (`analyzeRTLOQuestion`, `analyzeLeaseCompliance`).
* `src/server/chittyAuth.ts` — ChittyID format validation and the
  `isAuthenticated` session middleware.

External effects (the storage layer, the upstream AI completion call, the
identity provider's token endpoint) are modelled as explicit outcome
parameters of type `Except`; JavaScript truthiness of the dynamic request
and response fields is modelled explicitly (`JsNumField`, option strings).
-/

namespace ChittyPro

/-- A JavaScript number-valued field as it reaches the handler: it can be
absent (`undef`), `null`, or an actual number (modelled as an integer). -/
inductive JsNumField where
  | undef
  | jnull
  | num (n : Int)
deriving DecidableEq, Repr

/-- JS `x || 1`: falsy values (`undefined`, `null`, `0`) are replaced by 1.
Mirrors `(propertyData.units || 1)` in the POST /api/properties handler. -/
def jsOr1 : JsNumField → Int
  | .num n => if n = 0 then 1 else n
  | _ => 1

/-- JS `x || 0`: falsy values are replaced by 0. Mirrors
`(result.complianceScore || 0)` in `analyzeLeaseCompliance`. -/
def jsOrZero : JsNumField → Int
  | .num n => if n = 0 then 0 else n
  | _ => 0

/-- JS truthiness of a number-valued field (`0`, `null`, `undefined` are
falsy). -/
def truthyNum : JsNumField → Bool
  | .num n => n != 0
  | _ => false

/-- The numeric value of a number field (only meaningful when the field is
an actual number; the handlers read it only behind a truthiness guard). -/
def jsNumVal : JsNumField → Int
  | .num n => n
  | _ => 0

/-- JS truthiness of a string-valued field (absent and `""` are falsy). -/
def truthyStr : Option String → Bool
  | some s => s != ""
  | none => false

/-- A JSON field expected to be an array of `α`, as delivered by the
upstream service: it can be missing, `null`, a string, a number, a boolean,
a non-array object, or an actual array. -/
inductive JsArrField (α : Type) where
  | undef
  | jnull
  | str (s : String)
  | num (n : Int)
  | boolean (b : Bool)
  | obj
  | arr (xs : List α)

/-- `Array.isArray` on a `JsArrField`. -/
def JsArrField.isArr {α : Type} : JsArrField α → Bool
  | .arr _ => true
  | _ => false

/-- JS `Array.isArray(x) ? x : []`. -/
def jsArrayOrEmpty {α : Type} : JsArrField α → List α
  | .arr xs => xs
  | _ => []

/-! ### POST /api/properties (src/server/routes.ts lines 21-44) -/

/-- The parsed request body of POST /api/properties (the fields the
coverage computation reads). -/
structure PropInput where
  address : String
  isOwnerOccupied : Bool
  units : JsNumField
deriving DecidableEq, Repr

/-- The coverage computation of the POST /api/properties handler:
`isRtloCovered` starts `true` and is set to `false` when
`propertyData.isOwnerOccupied && (propertyData.units || 1) <= 6`. -/
def computeIsRtloCovered (owner : Bool) (units : JsNumField) : Bool :=
  if owner ∧ jsOr1 units ≤ 6 then false else true

/-- The record handed to `storage.createProperty` (the fields relevant to
the coverage invariant). -/
structure StoredProperty where
  isOwnerOccupied : Bool
  units : JsNumField
  isRtloCovered : Bool
deriving DecidableEq, Repr

/-- Outcome of the POST /api/properties handler: HTTP status, JSON
`message` body (empty on success), and the record persisted by the
storage layer (if any). -/
structure PropResp where
  status : Nat
  message : String
  stored : Option StoredProperty
deriving DecidableEq, Repr

/-- POST /api/properties. `parsed` is the outcome of
`insertPropertySchema.parse` (an exception carries its message); `store`
is the outcome of `storage.createProperty`. Both kinds of failure reach
the same catch block, which answers 400. -/
def propertiesPost (parsed : Except String PropInput) (store : Except String Unit) : PropResp :=
  match parsed with
  | .error m => ⟨400, "Failed to create property: " ++ m, none⟩
  | .ok d =>
    let covered := computeIsRtloCovered d.isOwnerOccupied d.units
    match store with
    | .error m => ⟨400, "Failed to create property: " ++ m, none⟩
    | .ok _ => ⟨200, "", some ⟨d.isOwnerOccupied, d.units, covered⟩⟩

/-! ### AI gateway response sanitising (src/server/chittygateway.ts) -/

/-- The sanitised result of `analyzeRTLOQuestion` as returned to the route. -/
structure RTLOAnalysis where
  answer : String
  rtloSection : Option String
  confidence : String
deriving DecidableEq, Repr

/-- The raw JSON object parsed from the upstream completion in
`analyzeRTLOQuestion` (the three fields the function reads; each may be
absent). -/
structure RawRTLOResult where
  answer : Option String
  rtloSection : Option String
  confidence : Option String

/-- The fallback answer used when the upstream `answer` field is falsy. -/
def defaultRTLOAnswer : String :=
  "Unable to provide specific guidance. Please consult the full Chicago RTLO text or legal counsel."

/-- JS `x || d` on a string-valued field. -/
def jsStrOr (v : Option String) (d : String) : String :=
  match v with
  | some s => if s = "" then d else s
  | none => d

/-- JS `x || null` on a string-valued field. -/
def jsStrOrNull (v : Option String) : Option String :=
  match v with
  | some s => if s = "" then none else some s
  | none => none

/-- JS `['high', 'medium', 'low'].includes(result.confidence) ?
result.confidence : 'low'`. -/
def clampConfidence (v : Option String) : String :=
  match v with
  | some s => if s ∈ (["high", "medium", "low"] : List String) then s else "low"
  | none => "low"

/-- The return-value construction of `analyzeRTLOQuestion` (lines 98-102
of src/server/chittygateway.ts). -/
def parseRTLOQuestionResult (r : RawRTLOResult) : RTLOAnalysis :=
  { answer := jsStrOr r.answer defaultRTLOAnswer
    rtloSection := jsStrOrNull r.rtloSection
    confidence := clampConfidence r.confidence }

/-- One entry of the `issues` array of a lease-compliance analysis (the
JSON key `section` is modelled as the field `sectionRef`). -/
structure LeaseIssue where
  sectionRef : String
  issue : String
  severity : String
  recommendation : String
deriving DecidableEq, Repr

/-- The sanitised result of `analyzeLeaseCompliance`. -/
structure LeaseAnalysis where
  complianceScore : Int
  issues : List LeaseIssue
  recommendations : List String
deriving DecidableEq, Repr

/-- The raw JSON object parsed from the upstream completion in
`analyzeLeaseCompliance`. -/
structure RawLeaseResult where
  complianceScore : JsNumField
  issues : JsArrField LeaseIssue
  recommendations : JsArrField String

/-- `Math.max(0, Math.min(100, result.complianceScore || 0))`. -/
def clampScore (v : JsNumField) : Int :=
  max 0 (min 100 (jsOrZero v))

/-- The return-value construction of `analyzeLeaseCompliance` (lines
156-160 of src/server/chittygateway.ts). -/
def parseLeaseComplianceResult (r : RawLeaseResult) : LeaseAnalysis :=
  { complianceScore := clampScore r.complianceScore
    issues := jsArrayOrEmpty r.issues
    recommendations := jsArrayOrEmpty r.recommendations }

/-! ### POST /api/rtlo-questions (src/server/routes.ts lines 57-81) -/

/-- A record persisted by `storage.createRTLOQuestion`. -/
structure RTLOQuestionRecord where
  userId : String
  question : String
  answer : String
  rtloSection : Option String
  confidence : String
deriving DecidableEq, Repr

/-- Outcome of the POST /api/rtlo-questions handler: HTTP status, message
body, the storage state after the request, and how many AI-gateway calls
and storage writes the request performed. -/
structure QResp where
  status : Nat
  message : String
  store : List RTLOQuestionRecord
  gatewayCalls : Nat
  storeCalls : Nat
deriving DecidableEq, Repr

/-- POST /api/rtlo-questions. `question` is the body field (absent or a
string); `gateway` is the outcome of `analyzeRTLOQuestion`; `storeResult`
is the outcome of `storage.createRTLOQuestion`; `st` is the stored state
before the request. -/
def rtloQuestionsPost (question : Option String) (gateway : Except String RTLOAnalysis)
    (storeResult : Except String Unit) (st : List RTLOQuestionRecord) : QResp :=
  match question with
  | none => ⟨400, "Question is required", st, 0, 0⟩
  | some qs =>
    if qs = "" then ⟨400, "Question is required", st, 0, 0⟩
    else
      match gateway with
      | .error m => ⟨500, "Failed to process question: " ++ m, st, 1, 0⟩
      | .ok a =>
        match storeResult with
        | .error m => ⟨500, "Failed to process question: " ++ m, st, 1, 1⟩
        | .ok _ =>
          ⟨200, "", st ++ [⟨"anonymous", qs, a.answer, a.rtloSection, a.confidence⟩], 1, 1⟩

/-! ### POST /api/documents, POST /api/ai-analysis, GET list routes -/

/-- A plain status/message response. -/
structure RouteResp where
  status : Nat
  message : String
deriving DecidableEq, Repr

/-- POST /api/documents (src/server/routes.ts lines 94-119). `gen` is the
outcome of `generateRTLODocument`; `storeResult` of
`storage.createDocument`. -/
def documentsPost (documentType title : Option String) (gen : Except String String)
    (storeResult : Except String Unit) : RouteResp :=
  if !(truthyStr documentType) || !(truthyStr title) then
    ⟨400, "Document type and title are required"⟩
  else
    match gen with
    | .error m => ⟨500, "Failed to generate document: " ++ m⟩
    | .ok _ =>
      match storeResult with
      | .error m => ⟨500, "Failed to generate document: " ++ m⟩
      | .ok _ => ⟨200, ""⟩

/-- Outcome of the POST /api/ai-analysis handler; `responseScore` is the
`complianceScore` of the parsed analysis embedded in the JSON response
(absent on failure). -/
structure AIResp where
  status : Nat
  message : String
  responseScore : Option Int
deriving DecidableEq, Repr

/-- POST /api/ai-analysis (src/server/routes.ts lines 132-161).
`analysis` is the outcome of `analyzeLeaseCompliance`; `storeResult` of
`storage.createAIAnalysis`. -/
def aiAnalysisPost (leaseText : Option String) (analysis : Except String LeaseAnalysis)
    (storeResult : Except String Unit) : AIResp :=
  match leaseText with
  | none => ⟨400, "Lease text is required", none⟩
  | some t =>
    if t = "" then ⟨400, "Lease text is required", none⟩
    else
      match analysis with
      | .error m => ⟨500, "Failed to perform AI analysis: " ++ m, none⟩
      | .ok a =>
        match storeResult with
        | .error m => ⟨500, "Failed to perform AI analysis: " ++ m, none⟩
        | .ok _ => ⟨200, "", some a.complianceScore⟩

/-- GET /api/properties (lines 46-54): a storage failure yields 500 with
a fixed message. -/
def getPropertiesRoute (fetch : Except String Unit) : RouteResp :=
  match fetch with
  | .ok _ => ⟨200, ""⟩
  | .error _ => ⟨500, "Failed to fetch properties"⟩

/-- GET /api/rtlo-questions (lines 83-91). -/
def getRtloQuestionsRoute (fetch : Except String Unit) : RouteResp :=
  match fetch with
  | .ok _ => ⟨200, ""⟩
  | .error _ => ⟨500, "Failed to fetch questions"⟩

/-- GET /api/documents (lines 121-129). -/
def getDocumentsRoute (fetch : Except String Unit) : RouteResp :=
  match fetch with
  | .ok _ => ⟨200, ""⟩
  | .error _ => ⟨500, "Failed to fetch documents"⟩

/-- GET /api/ai-analyses (lines 163-178). -/
def getAiAnalysesRoute (fetch : Except String Unit) : RouteResp :=
  match fetch with
  | .ok _ => ⟨200, ""⟩
  | .error _ => ⟨500, "Failed to fetch analyses"⟩

/-! ### Auth middleware (src/server/chittyAuth.ts lines 152-179) -/

/-- The session user as the middleware reads it: the token-expiry claim
and the refresh token. -/
structure SessionUser where
  expires_at : JsNumField
  refresh_token : Option String
deriving DecidableEq, Repr

/-- The token-endpoint response of a successful refresh grant: the new
expiry claim and the new refresh token. -/
structure RefreshedTokens where
  claimsExp : JsNumField
  refresh_token : Option String
deriving DecidableEq, Repr

/-- `updateUserSession` (lines 57-68): overwrite the session's tokens from
the token-endpoint response. -/
def updateUserSession (user : SessionUser) (tokens : RefreshedTokens) : SessionUser :=
  { expires_at := tokens.claimsExp, refresh_token := tokens.refresh_token }

/-- Outcome of the `isAuthenticated` middleware: the HTTP status answered
(if any), whether `next()` ran, how many refresh-token grants were
attempted, and the session user afterwards. -/
structure MWOutcome where
  response : Option Nat
  proceeded : Bool
  refreshCalls : Nat
  finalUser : SessionUser
deriving DecidableEq, Repr

/-- The `isAuthenticated` middleware. `authed` is `req.isAuthenticated()`;
`now` is `Math.floor(Date.now() / 1000)`; `refresh` is the outcome of the
single `client.refreshTokenGrant` call. -/
def isAuthenticated (authed : Bool) (user : SessionUser) (now : Int)
    (refresh : Except Unit RefreshedTokens) : MWOutcome :=
  if !authed || !(truthyNum user.expires_at) then
    ⟨some 401, false, 0, user⟩
  else if now ≤ jsNumVal user.expires_at then
    ⟨none, true, 0, user⟩
  else if !(truthyStr user.refresh_token) then
    ⟨some 401, false, 0, user⟩
  else
    match refresh with
    | .ok tokens => ⟨none, true, 1, updateUserSession user tokens⟩
    | .error _ => ⟨some 401, false, 1, user⟩

/-! ### ChittyID format validation (src/server/chittyAuth.ts lines 17-21)

`CHITTYID_PATTERN` is the anchored regular expression
`^CHITTY-(PEO|PLACE|PROP|EVNT|AUTH|INFO|FACT|CONTEXT|ACTOR|DOC|SERVICE)-[A-Z0-9]{8}-[A-Z0-9]{4}$`;
`validateChittyIDFormat` is `CHITTYID_PATTERN.test`. The embedding runs
the pattern as a matcher over the character list: a literal piece, an
alternation over the entity tags, and two counted character classes. -/

/-- The character class `[A-Z0-9]` (code points 65-90 and 48-57). -/
def isUpperAlnum (c : Char) : Bool :=
  decide ((65 ≤ c.toNat ∧ c.toNat ≤ 90) ∨ (48 ≤ c.toNat ∧ c.toNat ≤ 57))

/-- The character class `[a-z]` (code points 97-122). -/
def isLowerAlpha (c : Char) : Bool :=
  decide (97 ≤ c.toNat ∧ c.toNat ≤ 122)

/-- The closed entity-tag alternation of `CHITTYID_PATTERN`. -/
def chittyEntities : List String :=
  ["PEO", "PLACE", "PROP", "EVNT", "AUTH", "INFO", "FACT", "CONTEXT", "ACTOR", "DOC", "SERVICE"]

/-- Consume an exact literal from the front of the input; return the rest
on success. -/
def consumeLit : List Char → List Char → Option (List Char)
  | [], rest => some rest
  | _ :: _, [] => none
  | l :: ls, c :: cs => if c = l then consumeLit ls cs else none

/-- Consume exactly `n` characters of the class `[A-Z0-9]`; return the
rest on success. -/
def consumeAlnum : Nat → List Char → Option (List Char)
  | 0, rest => some rest
  | _ + 1, [] => none
  | n + 1, c :: cs => if isUpperAlnum c then consumeAlnum n cs else none

/-- Match `{e}-[A-Z0-9]{8}-[A-Z0-9]{4}$` against the rest of the input. -/
def matchChittyTail (e : String) (r : List Char) : Bool :=
  match consumeLit (e.data ++ ['-']) r with
  | none => false
  | some r2 =>
    match consumeAlnum 8 r2 with
    | none => false
    | some r3 =>
      match consumeLit ['-'] r3 with
      | none => false
      | some r4 =>
        match consumeAlnum 4 r4 with
        | none => false
        | some r5 => r5.isEmpty

/-- `validateChittyIDFormat`: test the anchored `CHITTYID_PATTERN`. -/
def validateChittyIDFormat (s : String) : Bool :=
  match consumeLit ("CHITTY-").data s.data with
  | none => false
  | some r => chittyEntities.any (fun e => matchChittyTail e r)

/-- The spec's description of the ChittyID format, transcribed: the string
is `CHITTY-{ENTITY}-{8 alnum}-{4 alnum}` with the entity tag drawn from
the fixed closed set (the character class of the pattern is `[A-Z0-9]`). -/
def chittySpecPattern (s : String) : Prop :=
  ∃ e, e ∈ chittyEntities ∧
    ∃ seq chk : List Char, seq.length = 8 ∧ seq.all isUpperAlnum = true ∧
      chk.length = 4 ∧ chk.all isUpperAlnum = true ∧
      s.data = ("CHITTY-").data ++ (e.data ++ '-' :: (seq ++ '-' :: chk))

/-- A concrete sanitised gateway result, used to exercise the storage
failure path of POST /api/rtlo-questions. -/
def sampleRTLOAnalysis : RTLOAnalysis :=
  ⟨"Security deposits are capped at 1.5 times the monthly rent.", some "5-12-080", "high"⟩

/-! ## Helper lemmas -/

theorem consumeLit_eq_some (lit : List Char) :
    ∀ l r : List Char, consumeLit lit l = some r ↔ l = lit ++ r := by
  induction lit with
  | nil => intro l r; simp [consumeLit]
  | cons x xs ih =>
    intro l r
    cases l with
    | nil => simp [consumeLit]
    | cons c cs =>
      by_cases hc : c = x
      · subst hc
        simp [consumeLit, ih]
      · simp [consumeLit, hc]

theorem consumeAlnum_eq_some :
    ∀ (n : Nat) (l r : List Char), consumeAlnum n l = some r ↔
      ∃ t : List Char, l = t ++ r ∧ t.length = n ∧ t.all isUpperAlnum = true := by
  intro n
  induction n with
  | zero =>
    intro l r
    simp only [consumeAlnum, Option.some_inj]
    constructor
    · intro h; exact ⟨[], by simp [h], rfl, rfl⟩
    · rintro ⟨t, ht, hlen, -⟩
      rw [List.length_eq_zero] at hlen
      subst hlen
      simpa using ht
  | succ n ih =>
    intro l r
    cases l with
    | nil =>
      simp only [consumeAlnum]
      constructor
      · intro h; exact absurd h (by simp)
      · rintro ⟨t, ht, hlen, -⟩
        cases t with
        | nil => simp at hlen
        | cons d t2 => simp at ht
    | cons c cs =>
      by_cases hc : isUpperAlnum c = true
      · rw [show consumeAlnum (n + 1) (c :: cs) = consumeAlnum n cs by simp [consumeAlnum, hc], ih]
        constructor
        · rintro ⟨t, ht, hlen, hall⟩
          exact ⟨c :: t, by simp [ht], by simp [hlen], by simp [hall, hc]⟩
        · rintro ⟨t, ht, hlen, hall⟩
          cases t with
          | nil => simp at hlen
          | cons d t2 =>
            obtain ⟨hd, hcs⟩ := List.cons_eq_cons.mp ht
            subst hd
            refine ⟨t2, hcs, by simpa using hlen, ?_⟩
            rw [List.all_cons, Bool.and_eq_true] at hall
            exact hall.2
      · rw [show consumeAlnum (n + 1) (c :: cs) = none by simp [consumeAlnum, hc]]
        constructor
        · intro h; exact absurd h (by simp)
        · rintro ⟨t, ht, hlen, hall⟩
          cases t with
          | nil => simp at hlen
          | cons d t2 =>
            obtain ⟨hd, -⟩ := List.cons_eq_cons.mp ht
            subst hd
            rw [List.all_cons, Bool.and_eq_true] at hall
            exact absurd hall.1 hc

theorem matchChittyTail_eq_true (e : String) (r : List Char) :
    matchChittyTail e r = true ↔
      ∃ seq chk : List Char, seq.length = 8 ∧ seq.all isUpperAlnum = true ∧
        chk.length = 4 ∧ chk.all isUpperAlnum = true ∧
        r = e.data ++ '-' :: (seq ++ '-' :: chk) := by
  constructor
  · intro h
    unfold matchChittyTail at h
    split at h
    · exact absurd h (by simp)
    · rename_i r2 h1
      split at h
      · exact absurd h (by simp)
      · rename_i r3 h2
        split at h
        · exact absurd h (by simp)
        · rename_i r4 h3
          split at h
          · exact absurd h (by simp)
          · rename_i r5 h4
            rw [List.isEmpty_iff] at h
            subst h
            rw [consumeLit_eq_some] at h1 h3
            rw [consumeAlnum_eq_some] at h2 h4
            obtain ⟨seq, hseq, hlen8, hall8⟩ := h2
            obtain ⟨chk, hchk, hlen4, hall4⟩ := h4
            refine ⟨seq, chk, hlen8, hall8, hlen4, hall4, ?_⟩
            simp only [List.append_nil] at hchk
            subst hchk
            rw [h1, hseq, h3]
            simp
  · rintro ⟨seq, chk, hlen8, hall8, hlen4, hall4, hr⟩
    have h1 : consumeLit (e.data ++ ['-']) r = some (seq ++ '-' :: chk) := by
      rw [consumeLit_eq_some, hr]
      simp
    have h2 : consumeAlnum 8 (seq ++ '-' :: chk) = some ('-' :: chk) := by
      rw [consumeAlnum_eq_some]
      exact ⟨seq, rfl, hlen8, hall8⟩
    have h3 : consumeLit ['-'] ('-' :: chk) = some chk := by
      rw [consumeLit_eq_some]; rfl
    have h4 : consumeAlnum 4 chk = some [] := by
      rw [consumeAlnum_eq_some]
      exact ⟨chk, by simp, hlen4, hall4⟩
    simp only [matchChittyTail, h1, h2, h3, h4, List.isEmpty_nil]

theorem validateChittyIDFormat_iff (s : String) :
    validateChittyIDFormat s = true ↔ chittySpecPattern s := by
  unfold validateChittyIDFormat chittySpecPattern
  cases hlit : consumeLit ("CHITTY-").data s.data with
  | none =>
    simp only [Bool.false_eq_true, false_iff]
    rintro ⟨e, he, seq, chk, h8, ha8, h4, ha4, hdata⟩
    have hsome : consumeLit ("CHITTY-").data s.data = some (e.data ++ '-' :: (seq ++ '-' :: chk)) :=
      (consumeLit_eq_some _ _ _).mpr hdata
    rw [hlit] at hsome
    exact Option.noConfusion hsome
  | some r =>
    rw [consumeLit_eq_some] at hlit
    rw [List.any_eq_true]
    constructor
    · rintro ⟨e, he, hm⟩
      obtain ⟨seq, chk, h8, ha8, h4, ha4, hr⟩ := (matchChittyTail_eq_true e r).mp hm
      exact ⟨e, he, seq, chk, h8, ha8, h4, ha4, by rw [hlit, hr]⟩
    · rintro ⟨e, he, seq, chk, h8, ha8, h4, ha4, hdata⟩
      refine ⟨e, he, (matchChittyTail_eq_true e r).mpr ⟨seq, chk, h8, ha8, h4, ha4, ?_⟩⟩
      rw [hlit] at hdata
      exact List.append_cancel_left hdata

/-! ## Claim theorems -/

/-- C1: for every property created via POST /api/properties, the stored
`isRtloCovered` flag is `false` iff the property is owner-occupied and has
at most 6 units; every other combination of `isOwnerOccupied` and `units`
yields `true`. The first conjunct settles the rule for every numeric
units value; the second shows the handler stores exactly the computed
flag alongside the input data. -/
theorem post_properties_coverage_rule :
    (∀ (owner : Bool) (n : Int),
        computeIsRtloCovered owner (.num n) = false ↔ (owner = true ∧ n ≤ 6)) ∧
    (∀ d : PropInput, (propertiesPost (.ok d) (.ok ())).stored =
        some ⟨d.isOwnerOccupied, d.units, computeIsRtloCovered d.isOwnerOccupied d.units⟩) := by
  constructor
  · intro owner n
    cases owner with
    | false => simp [computeIsRtloCovered]
    | true =>
      by_cases h0 : n = 0
      · subst h0
        norm_num [computeIsRtloCovered, jsOr1]
      · by_cases h6 : n ≤ 6
        · simp [computeIsRtloCovered, jsOr1, h0, h6]
        · simp [computeIsRtloCovered, jsOr1, h0, h6]
  · intro d
    rfl

/-- C2 counterexample: in POST /api/properties a storage failure after a
successful schema parse is answered with status 400 (the single catch
block), not 500, refuting the claim that every data route answers 500 on
component failure and that 400 marks only invalid input. -/
theorem post_properties_storage_failure_returns_400 :
    (propertiesPost (.ok ⟨"100 Main St", false, .num 3⟩) (.error "database connection lost")).status = 400 ∧
    (propertiesPost (.ok ⟨"100 Main St", false, .num 3⟩) (.error "database connection lost")).message =
      "Failed to create property: database connection lost" ∧
    (propertiesPost (.ok ⟨"100 Main St", false, .num 3⟩) (.error "database connection lost")).status ≠ 500 :=
  ⟨rfl, rfl, by decide⟩

/-- C2 amended: on component failure after validation, the POST
rtlo-questions, documents and ai-analysis routes answer 500 with the
component's error message; the GET list routes answer 500 with a fixed
message that does not carry the component's error; POST /api/properties
answers 400 with the component's error message, so 400 is not reserved
for invalid input. -/
theorem data_routes_component_failure_statuses (m : String) :
    (rtloQuestionsPost (some "What is the deposit limit?") (.error m) (.ok ()) []).status = 500 ∧
    (rtloQuestionsPost (some "What is the deposit limit?") (.error m) (.ok ()) []).message =
      "Failed to process question: " ++ m ∧
    (rtloQuestionsPost (some "What is the deposit limit?") (.ok sampleRTLOAnalysis) (.error m) []).status = 500 ∧
    (rtloQuestionsPost (some "What is the deposit limit?") (.ok sampleRTLOAnalysis) (.error m) []).message =
      "Failed to process question: " ++ m ∧
    (documentsPost (some "access-notice") (some "48-hour notice") (.error m) (.ok ())).status = 500 ∧
    (documentsPost (some "access-notice") (some "48-hour notice") (.error m) (.ok ())).message =
      "Failed to generate document: " ++ m ∧
    (documentsPost (some "access-notice") (some "48-hour notice") (.ok "content") (.error m)).status = 500 ∧
    (aiAnalysisPost (some "lease text") (.error m) (.ok ())).status = 500 ∧
    (aiAnalysisPost (some "lease text") (.error m) (.ok ())).message =
      "Failed to perform AI analysis: " ++ m ∧
    (propertiesPost (.ok ⟨"100 Main St", false, .num 3⟩) (.error m)).status = 400 ∧
    (propertiesPost (.ok ⟨"100 Main St", false, .num 3⟩) (.error m)).message =
      "Failed to create property: " ++ m ∧
    (getPropertiesRoute (.error m)).status = 500 ∧
    (getPropertiesRoute (.error m)).message = "Failed to fetch properties" ∧
    (getRtloQuestionsRoute (.error m)).status = 500 ∧
    (getDocumentsRoute (.error m)).status = 500 ∧
    (getAiAnalysesRoute (.error m)).status = 500 :=
  ⟨rfl, rfl, rfl, rfl, rfl, rfl, rfl, rfl, rfl, rfl, rfl, rfl, rfl, rfl, rfl, rfl⟩

/-- C3: the `complianceScore` returned for a lease-compliance analysis is
always in [0, 100], whatever numeric value (or none) the upstream service
supplied; the sanitised score is the one stored and echoed by the
POST /api/ai-analysis route. -/
theorem compliance_score_in_range :
    (∀ v : JsNumField, 0 ≤ clampScore v ∧ clampScore v ≤ 100) ∧
    (∀ r : RawLeaseResult,
        (parseLeaseComplianceResult r).complianceScore = clampScore r.complianceScore) ∧
    (∀ r : RawLeaseResult,
        (aiAnalysisPost (some "lease text") (.ok (parseLeaseComplianceResult r)) (.ok ())).responseScore =
          some (clampScore r.complianceScore)) := by
  refine ⟨fun v => ⟨le_max_left 0 _, max_le (by norm_num) (min_le_left _ _)⟩, fun r => rfl, fun r => rfl⟩

/-- C4: the confidence returned for an RTLO question is always one of
"high", "medium", "low"; any other upstream value, a missing one
included, is replaced by "low". -/
theorem confidence_always_valid :
    (∀ v : Option String,
        clampConfidence v = "high" ∨ clampConfidence v = "medium" ∨ clampConfidence v = "low") ∧
    (∀ v : Option String,
        v ∉ ([some "high", some "medium", some "low"] : List (Option String)) →
          clampConfidence v = "low") ∧
    (∀ r : RawRTLOResult, (parseRTLOQuestionResult r).confidence = clampConfidence r.confidence) := by
  refine ⟨?_, ?_, fun r => rfl⟩
  · intro v
    cases v with
    | none => right; right; rfl
    | some s =>
      by_cases h : s ∈ (["high", "medium", "low"] : List String)
      · rw [show clampConfidence (some s) = s by simp [clampConfidence, h]]
        simpa using h
      · right; right; simp [clampConfidence, h]
  · intro v hv
    cases v with
    | none => rfl
    | some s =>
      by_cases h : s ∈ (["high", "medium", "low"] : List String)
      · exfalso
        apply hv
        simp only [List.mem_cons, List.mem_singleton] at h ⊢
        rcases h with h | h | h | h
        · exact Or.inl (by rw [h])
        · exact Or.inr (Or.inl (by rw [h]))
        · exact Or.inr (Or.inr (Or.inl (by rw [h])))
        · exact absurd h (List.not_mem_nil s)
      · simp [clampConfidence, h]

/-- Witness for C4 at the unrecognized upstream value "banana". -/
theorem confidence_always_valid_witness :
    clampConfidence (some "banana") = "low" ∧
    (some "banana" : Option String) ∉ ([some "high", some "medium", some "low"] : List (Option String)) :=
  ⟨confidence_always_valid.2.1 (some "banana") (by decide), by decide⟩

/-- C5: when the body of POST /api/rtlo-questions has no truthy
`question` field (absent or empty string), the route answers 400, makes
no AI-gateway call and no storage write, and the stored state is
unchanged. -/
theorem post_rtlo_questions_missing_question :
    ∀ (gateway : Except String RTLOAnalysis) (storeResult : Except String Unit)
      (st : List RTLOQuestionRecord),
      rtloQuestionsPost none gateway storeResult st = ⟨400, "Question is required", st, 0, 0⟩ ∧
      rtloQuestionsPost (some "") gateway storeResult st = ⟨400, "Question is required", st, 0, 0⟩ := by
  intro gateway storeResult st
  exact ⟨rfl, rfl⟩

/-- C6 counterexample: an authenticated session whose `expires_at` is 0
(a timestamp in the past, witnessed by `0 < 100` for the request time
100) and which holds a refresh token is answered 401 with zero
refresh-token grants, because the middleware treats the falsy
`expires_at` value 0 as missing — refuting the claim that such a request
triggers exactly one refresh grant and proceeds on success. -/
theorem stale_session_zero_expiry_no_refresh :
    (isAuthenticated true ⟨.num 0, some "refresh-token"⟩ 100 (.ok ⟨.num 999, some "rt2"⟩)).refreshCalls = 0 ∧
    (isAuthenticated true ⟨.num 0, some "refresh-token"⟩ 100 (.ok ⟨.num 999, some "rt2"⟩)).proceeded = false ∧
    (isAuthenticated true ⟨.num 0, some "refresh-token"⟩ 100 (.ok ⟨.num 999, some "rt2"⟩)).response = some 401 ∧
    truthyStr (some "refresh-token") = true ∧
    (0 : Int) < 100 := by
  decide

/-- C6 amended: for an authenticated session whose `expires_at` is a
nonzero timestamp in the past, a truthy refresh token triggers exactly
one refresh-token grant: on success the session is updated and the
request proceeds without re-login, on failure it yields 401; without a
truthy refresh token the request yields 401 with no refresh attempt.
(A session whose `expires_at` is 0 or missing is rejected 401 with no
refresh attempt.) -/
theorem stale_session_refresh_flow (user : SessionUser) (now e : Int) (tokens : RefreshedTokens)
    (hexp : user.expires_at = .num e) (hnz : e ≠ 0) (hpast : e < now) :
    (truthyStr user.refresh_token = true →
        (isAuthenticated true user now (.ok tokens)).refreshCalls = 1 ∧
        (isAuthenticated true user now (.ok tokens)).proceeded = true ∧
        (isAuthenticated true user now (.ok tokens)).response = none ∧
        (isAuthenticated true user now (.ok tokens)).finalUser = updateUserSession user tokens ∧
        (isAuthenticated true user now (.error ())).refreshCalls = 1 ∧
        (isAuthenticated true user now (.error ())).proceeded = false ∧
        (isAuthenticated true user now (.error ())).response = some 401) ∧
    (truthyStr user.refresh_token = false →
        (isAuthenticated true user now (.error ())).response = some 401 ∧
        (isAuthenticated true user now (.error ())).refreshCalls = 0 ∧
        (isAuthenticated true user now (.ok tokens)).response = some 401 ∧
        (isAuthenticated true user now (.ok tokens)).refreshCalls = 0) := by
  have ht : truthyNum user.expires_at = true := by
    rw [hexp]; simp [truthyNum, hnz]
  have hv : jsNumVal user.expires_at = e := by rw [hexp]; rfl
  have hnle : ¬(now ≤ e) := by omega
  constructor
  · intro hr
    simp [isAuthenticated, ht, hv, hnle, hr]
  · intro hr
    simp [isAuthenticated, ht, hv, hnle, hr]

/-- Witness for the amended C6 at a concrete stale session. -/
theorem stale_session_refresh_flow_witness :
    (isAuthenticated true ⟨.num 50, some "rt"⟩ 100 (.ok ⟨.num 999, some "rt2"⟩)).refreshCalls = 1 ∧
    (isAuthenticated true ⟨.num 50, some "rt"⟩ 100 (.ok ⟨.num 999, some "rt2"⟩)).proceeded = true :=
  ⟨((stale_session_refresh_flow ⟨.num 50, some "rt"⟩ 100 50 ⟨.num 999, some "rt2"⟩ rfl
      (by decide) (by decide)).1 (by decide)).1,
   ((stale_session_refresh_flow ⟨.num 50, some "rt"⟩ 100 50 ⟨.num 999, some "rt2"⟩ rfl
      (by decide) (by decide)).1 (by decide)).2.1⟩

/-- C7: `validateChittyIDFormat` accepts "CHITTY-PEO-ABCD1234-WXYZ",
rejects "CHITTY-XYZ-12-AB", and accepts exactly the strings of the form
CHITTY-{ENTITY}-{8 alnum}-{4 alnum} with the entity tag drawn from the
fixed closed set. -/
theorem chittyid_format_characterization :
    validateChittyIDFormat "CHITTY-PEO-ABCD1234-WXYZ" = true ∧
    validateChittyIDFormat "CHITTY-XYZ-12-AB" = false ∧
    ∀ s : String, validateChittyIDFormat s = true ↔ chittySpecPattern s :=
  ⟨by decide, by decide, validateChittyIDFormat_iff⟩

/-- C8: whenever the upstream `issues` or `recommendations` field of a
lease-compliance response is not an array, the corresponding field of the
result returned to the caller is the empty array. -/
theorem lease_arrays_default_empty :
    (∀ r : RawLeaseResult, r.issues.isArr = false → (parseLeaseComplianceResult r).issues = []) ∧
    (∀ r : RawLeaseResult,
        r.recommendations.isArr = false → (parseLeaseComplianceResult r).recommendations = []) := by
  have key : ∀ (α : Type) (v : JsArrField α), v.isArr = false → jsArrayOrEmpty v = [] := by
    intro α v h
    cases v with
    | arr xs => exact absurd h (by simp [JsArrField.isArr])
    | undef => rfl
    | jnull => rfl
    | str s => rfl
    | num n => rfl
    | boolean b => rfl
    | obj => rfl
  exact ⟨fun r h => key _ r.issues h, fun r h => key _ r.recommendations h⟩

/-- Witness for C8 at a null `issues` field and a string
`recommendations` field. -/
theorem lease_arrays_default_empty_witness :
    (parseLeaseComplianceResult ⟨.num 85, .jnull, .str "fix the deposit clause"⟩).issues = [] ∧
    (parseLeaseComplianceResult ⟨.num 85, .jnull, .str "fix the deposit clause"⟩).recommendations = [] ∧
    (JsArrField.jnull : JsArrField LeaseIssue).isArr = false ∧
    (JsArrField.str "fix the deposit clause" : JsArrField String).isArr = false :=
  ⟨lease_arrays_default_empty.1 ⟨.num 85, .jnull, .str "fix the deposit clause"⟩ rfl,
   lease_arrays_default_empty.2 ⟨.num 85, .jnull, .str "fix the deposit clause"⟩ rfl,
   rfl, rfl⟩

/-- C9: in the coverage computation of POST /api/properties an absent,
null or zero `units` field is treated as 1 unit, so an owner-occupied
property with no units value is stored with `isRtloCovered = false`. -/
theorem post_properties_units_default :
    jsOr1 .undef = 1 ∧ jsOr1 .jnull = 1 ∧ jsOr1 (.num 0) = 1 ∧
    computeIsRtloCovered true .undef = false ∧
    computeIsRtloCovered true .jnull = false ∧
    computeIsRtloCovered true (.num 0) = false ∧
    (propertiesPost (.ok ⟨"742 Evergreen Terrace", true, .undef⟩) (.ok ())).stored =
      some ⟨true, .undef, false⟩ := by
  decide

/-- C10: ChittyID validation is case-sensitive — every string accepted by
`validateChittyIDFormat` contains no lowercase letter at all (in
particular none in the sequence and checksum segments), and the lowercase
variant of an otherwise valid id is rejected. -/
theorem chittyid_rejects_lowercase :
    validateChittyIDFormat "CHITTY-PEO-abcd1234-WXYZ" = false ∧
    ∀ s : String, validateChittyIDFormat s = true → ∀ c ∈ s.data, isLowerAlpha c = false := by
  refine ⟨by decide, ?_⟩
  intro s hs c hc
  obtain ⟨e, he, seq, chk, h8, ha8, h4, ha4, hdata⟩ := (validateChittyIDFormat_iff s).mp hs
  rw [hdata] at hc
  have hupper : ∀ d : Char, isUpperAlnum d = true → isLowerAlpha d = false := by
    intro d hd
    simp only [isUpperAlnum, decide_eq_true_eq] at hd
    simp only [isLowerAlpha, decide_eq_false_iff_not]
    omega
  have hent : ∀ x ∈ chittyEntities, ∀ d ∈ x.data, isLowerAlpha d = false := by decide
  have hpre : ∀ d ∈ ("CHITTY-").data, isLowerAlpha d = false := by decide
  rw [List.all_eq_true] at ha8 ha4
  rcases List.mem_append.mp hc with h | hc2
  · exact hpre c h
  rcases List.mem_append.mp hc2 with h | hc3
  · exact hent e he c h
  rcases List.mem_cons.mp hc3 with h | hc4
  · subst h; rfl
  rcases List.mem_append.mp hc4 with h | hc5
  · exact hupper c (ha8 c h)
  rcases List.mem_cons.mp hc5 with h | h
  · subst h; rfl
  · exact hupper c (ha4 c h)

/-- Witness for C10 at the accepted id "CHITTY-DOC-AAAA0000-ZZ99" and its
character 'C'. -/
theorem chittyid_rejects_lowercase_witness :
    isLowerAlpha 'C' = false ∧ validateChittyIDFormat "CHITTY-DOC-AAAA0000-ZZ99" = true :=
  ⟨chittyid_rejects_lowercase.2 "CHITTY-DOC-AAAA0000-ZZ99" (by decide) 'C' (by decide), by decide⟩

end ChittyPro
